import Mathlib

/-!
Verification of the TracksMartin client (tracksmartin_api.py, lyrics_generator.py,
genre_templates.py) against its natural-language specification.

The Python code is embedded shallowly:
* JSON dictionaries become Lean structures with `Option` fields (a `none` field
  models an absent key) or association lists `List (String × Val)`;
* the network is a function parameter `submit : Payload → ApiResponse` passed to
  each operation, and the status endpoint consulted by the polling loops is a
  script `Nat → Response` mapping the attempt number to the reply it returns;
* `time.sleep(interval)` calls are counted: every function that sleeps returns,
  next to its result, the number of sleeps it performed (each of `interval`
  seconds);
* Python `raise` becomes an `Except` error value; float parameters (the weight
  knobs, compared only against 0, 1 and 1.5, all exact in binary floating point)
  are modelled as rationals.
-/

/-! ## Python string primitives

Models of the Python string methods the client uses, by structural recursion
over the character list (Lean's built-in byte-position-based `String`
functions do not reduce definitionally, so concrete evaluations could not be
checked by the kernel through them). -/

/-- Python `s.startswith(pre)`. -/
def py_startswith (s pre : String) : Bool := pre.data.isPrefixOf s.data

/-- Python `s.strip()`: drop leading and trailing whitespace (the inputs in
question are ASCII, where `Char.isWhitespace` and Python's notion agree). -/
def py_strip (s : String) : String :=
  String.mk (((s.data.dropWhile Char.isWhitespace).reverse.dropWhile Char.isWhitespace).reverse)

/-- Python `s.lower()` (ASCII). -/
def py_lower (s : String) : String := String.mk (s.data.map Char.toLower)

/-- Worker for `py_split_nl`: `acc` is the current segment, reversed. -/
def py_split_nl_go : List Char → List Char → List String
  | [], acc => [String.mk acc.reverse]
  | c :: cs, acc =>
    if c = '\n' then String.mk acc.reverse :: py_split_nl_go cs []
    else py_split_nl_go cs (c :: acc)

/-- Python `s.split('\n')` (so `"".split('\n') = ['']` and a trailing newline
yields a trailing empty segment). -/
def py_split_nl (s : String) : List String := py_split_nl_go s.data []

/-- Worker for `py_replace`: replace each non-overlapping occurrence of `old`,
left to right; `skip` counts characters of a just-matched occurrence still to
be consumed.  (For `old = []` this is the identity, where Python would
intersperse `new`; the client only replaces the non-empty markers `'TITLE:'`
and `'TAGS:'`.) -/
def py_replace_go (old new : List Char) : Nat → List Char → List Char
  | _, [] => []
  | k + 1, _ :: cs => py_replace_go old new k cs
  | 0, c :: cs =>
    if old ≠ [] ∧ old.isPrefixOf (c :: cs) then
      new ++ py_replace_go old new (old.length - 1) cs
    else c :: py_replace_go old new 0 cs

/-- Python `s.replace(old, new)` (all occurrences, not just a prefix). -/
def py_replace (s old new : String) : String :=
  String.mk (py_replace_go old.data new.data 0 s.data)

/-! ## Polling engine (`TracksMartinClient.poll_until_complete`) -/

/-- One clip record of a status reply, as consulted by the polling loop:
`clip.get('state')` and the `clip_id` field. Absent keys are `none`. -/
structure Clip where
  state : Option String
  clip_id : Option String
  deriving DecidableEq, Repr

/-- A status-endpoint reply (the "envelope"): the polling loop reads
`response.get('type')`, `response.get('code')` and `response['data']`
(`data = none` models a reply with no `data` key). -/
structure Response where
  type : Option String
  code : Option Int
  data : Option (List Clip)
  deriving DecidableEq, Repr

/-- What one polling attempt decides from the reply it observed. -/
inductive StepResult where
  | waiting
  | succeeded (clip : Clip)
  | failed (state : String)
  deriving DecidableEq, Repr

/-- The body of one iteration of `poll_until_complete`'s loop (lines 653-685):
`type == 'not_ready'` → continue; `code != 200 or 'data' not in response` →
continue; empty `data` → continue; otherwise the first clip's `state` decides:
`"succeeded"` returns it, `"error"`/`"failed"` raises, anything else (including
an absent `state` key) continues. -/
def pollStep (response : Response) : StepResult :=
  if response.type = some "not_ready" then .waiting
  else if response.code ≠ some 200 then .waiting
  else
    match response.data with
    | none => .waiting
    | some clips =>
      match clips with
      | [] => .waiting
      | clip :: _ =>
        match clip.state with
        | none => .waiting
        | some state =>
          if state = "succeeded" then .succeeded clip
          else if state = "error" ∨ state = "failed" then .failed state
          else .waiting

/-- The value a successful poll hands back: the Python function returns a single
clip dictionary; a list of clips would be a different value. -/
inductive PollRet where
  | single (clip : Clip)
  | many (clips : List Clip)
  deriving DecidableEq, Repr

/-- Outcome of `poll_until_complete`: the returned value, the
`SunoAPIError("Generation failed with state: …")` carrying the observed state,
or the `SunoAPIError("Polling timed out after … seconds")` carrying the elapsed
budget in seconds. -/
inductive PollOutcome where
  | success (ret : PollRet)
  | jobFailed (state : String)
  | timeout (elapsedSeconds : Nat)
  deriving DecidableEq, Repr

/-- The loop of `poll_until_complete` (lines 647-689), by recursion on the
remaining attempts.  Each iteration first sleeps (`time.sleep(interval)` at the
top of the loop body, counted in the second component), then queries the script
at the current attempt number (attempts are numbered from 1 as in
`range(1, max_attempts + 1)`).  `timeoutSeconds` is the
`max_attempts * interval` reported when the budget is exhausted. -/
def pollAux (script : Nat → Response) (timeoutSeconds : Nat) (attempt : Nat) :
    Nat → Nat → PollOutcome × Nat
  | 0, sleeps => (.timeout timeoutSeconds, sleeps)
  | remaining + 1, sleeps =>
    match pollStep (script attempt) with
    | .waiting => pollAux script timeoutSeconds (attempt + 1) remaining (sleeps + 1)
    | .succeeded clip => (.success (.single clip), sleeps + 1)
    | .failed state => (.jobFailed state, sleeps + 1)

/-- `poll_until_complete` over a scripted status endpoint: the outcome and the
number of sleeps performed. -/
def poll_until_complete (script : Nat → Response) (max_attempts interval : Nat) :
    PollOutcome × Nat :=
  pollAux script (max_attempts * interval) 1 max_attempts 0

/-! ## MIDI retrieval (`TracksMartinClient.get_midi`) -/

/-- The `data` object of a MIDI reply: the loop reads `data.get('midi_url')`. -/
structure MidiData where
  midi_url : Option String
  deriving DecidableEq, Repr

/-- A `suno/midi` reply: `response.get('code')` and the optional `data` object. -/
structure MidiResponse where
  code : Option Int
  data : Option MidiData
  deriving DecidableEq, Repr

/-- The success test of `get_midi` (lines 575-579): `code == 200`, a `data`
key, and a truthy `midi_url` (present and non-empty) that does not start with
`'Failed'`. -/
def midiReady (response : MidiResponse) : Bool :=
  if response.code = some 200 then
    match response.data with
    | none => false
    | some d =>
      match d.midi_url with
      | none => false
      | some url => !(url = "") && !(py_startswith url "Failed")
  else false

/-- The loop of `get_midi` (lines 571-586), by recursion on the number of
sleeps still allowed (`remaining = max_attempts - 1 - attempt`): each iteration
queries first and returns the reply when `midiReady`; otherwise it sleeps and
retries, except on the last attempt (`attempt < max_attempts - 1` false), where
the loop ends and the last reply is returned as is — so at `remaining = 0` the
reply of the current attempt is returned whether ready or not. -/
def getMidiGo (script : Nat → MidiResponse) (attempt : Nat) :
    Nat → Nat → MidiResponse × Nat
  | 0, sleeps => (script attempt, sleeps)
  | remaining + 1, sleeps =>
    let response := script attempt
    if midiReady response then (response, sleeps)
    else getMidiGo script (attempt + 1) remaining (sleeps + 1)

/-- `get_midi` over a scripted endpoint (attempts numbered from 0 as in
`range(max_attempts)`): the reply returned and the number of sleeps.  With
`max_attempts = 0` the Python loop body never runs and the trailing
`return response` reads an unbound variable, so the result is `none`. -/
def get_midi (script : Nat → MidiResponse) (max_attempts : Nat) :
    Option (MidiResponse × Nat) :=
  if max_attempts = 0 then none
  else some (getMidiGo script 0 (max_attempts - 1) 0)

/-! ## Job submission (`TracksMartinClient.create_music` and friends)

Each operation builds its JSON payload as an association list (Python dicts
with distinct keys), hands it to the injected network function
`submit : Payload → ApiResponse`, and post-processes the reply exactly as the
source does: `create_music` raises `SunoAPIError` when `task_id` is missing
(lines 164-165); every other operation returns `self._make_request(...)`
directly.  `ValueError` raises become `ApiErr.valueError`. -/

/-- A JSON scalar appearing in a request payload. -/
inductive Val where
  | str (s : String)
  | int (n : Int)
  | rat (q : ℚ)
  | bool (b : Bool)
  deriving DecidableEq, Repr

/-- A request payload: a JSON object with distinct keys, in insertion order. -/
abbrev Payload := List (String × Val)

/-- A submission reply, also a JSON object. -/
abbrev ApiResponse := List (String × Val)

/-- Python `key in response`. -/
def hasKey (r : ApiResponse) (key : String) : Bool :=
  r.any (fun p => p.1 = key)

/-- Look a key up in a payload (first binding, as in a dict with unique keys). -/
def payloadGet (p : Payload) (key : String) : Option Val :=
  (p.find? (fun q => q.1 = key)).map (·.2)

/-- `if value: payload[key] = value` for an optional string argument: Python
truthiness skips both `None` and the empty string. -/
def optStr (key : String) (value : Option String) : Payload :=
  match value with
  | none => []
  | some s => if s = "" then [] else [(key, .str s)]

/-- `if value is not None: payload[key] = value` for an optional number. -/
def optNum (key : String) (value : Option ℚ) : Payload :=
  match value with
  | none => []
  | some q => [(key, .rat q)]

/-- The two exception classes the client raises: `ValueError` for argument
validation and `SunoAPIError` for upstream/protocol failures. -/
inductive ApiErr where
  | valueError (msg : String)
  | sunoAPIError (msg : String)
  deriving DecidableEq, Repr

/-- The payload built by `create_music` (lines 133-160, without `**kwargs`):
base fields, then the prompt under `gpt_description_prompt` when
`make_instrumental` and under `prompt` otherwise, then the optional fields in
source order. -/
def create_music_payload (prompt : String) (title tags : Option String)
    (style_weight weirdness_constraint : Option ℚ) (negative_tags : Option String)
    (custom_mode make_instrumental : Bool) (mv : String) : Payload :=
  [("custom_mode", .bool custom_mode),
   ("make_instrumental", .bool make_instrumental),
   ("mv", .str mv)]
  ++ (if make_instrumental then [("gpt_description_prompt", Val.str prompt)]
      else [("prompt", Val.str prompt)])
  ++ optStr "title" title
  ++ optStr "tags" tags
  ++ optNum "style_weight" style_weight
  ++ optNum "weirdness_constraint" weirdness_constraint
  ++ optStr "negative_tags" negative_tags

/-- `create_music` (lines 102-167): no argument validation; after the request,
a reply without `task_id` raises `SunoAPIError`. -/
def create_music (submit : Payload → ApiResponse) (prompt : String)
    (title tags : Option String) (style_weight weirdness_constraint : Option ℚ)
    (negative_tags : Option String) (custom_mode make_instrumental : Bool)
    (mv : String) : Except ApiErr ApiResponse :=
  let payload := create_music_payload prompt title tags style_weight
    weirdness_constraint negative_tags custom_mode make_instrumental mv
  let response := submit payload
  if hasKey response "task_id" then .ok response
  else .error (.sunoAPIError "No task_id in response")

/-- `extend_music` (lines 212-252): builds the payload and returns the reply
with no `task_id` check. -/
def extend_music (submit : Payload → ApiResponse) (continue_clip_id : String)
    (prompt : String) (continue_at : Int) (tags title : Option String)
    (custom_mode : Bool) (mv : String) : Except ApiErr ApiResponse :=
  let payload : Payload :=
    [("task_type", .str "extend_music"),
     ("continue_clip_id", .str continue_clip_id),
     ("continue_at", .int continue_at),
     ("custom_mode", .bool custom_mode),
     ("mv", .str mv)]
    ++ (if prompt = "" then [] else [("prompt", Val.str prompt)])
    ++ optStr "tags" tags
    ++ optStr "title" title
  .ok (submit payload)

/-- `concat_music` (lines 254-273): returns the reply with no `task_id` check. -/
def concat_music (submit : Payload → ApiResponse) (continue_clip_id : String) :
    Except ApiErr ApiResponse :=
  .ok (submit [("task_type", .str "concat_music"),
               ("continue_clip_id", .str continue_clip_id)])

/-- `cover_music` (lines 275-312): returns the reply with no `task_id` check. -/
def cover_music (submit : Payload → ApiResponse) (continue_clip_id : String)
    (prompt title tags : Option String) (custom_mode : Bool) (mv : String) :
    Except ApiErr ApiResponse :=
  let payload : Payload :=
    [("task_type", .str "cover_music"),
     ("custom_mode", .bool custom_mode),
     ("continue_clip_id", .str continue_clip_id),
     ("mv", .str mv)]
    ++ optStr "prompt" prompt
    ++ optStr "title" title
    ++ optStr "tags" tags
  .ok (submit payload)

/-- `remaster` (lines 314-361): validates `variation_category` and `mv`
(`ValueError`), then returns the reply with no `task_id` check. -/
def remaster (submit : Payload → ApiResponse) (clip_id : String)
    (variation_category : String) (mv : String) : Except ApiErr ApiResponse :=
  if ¬ (variation_category = "subtle" ∨ variation_category = "normal" ∨
        variation_category = "high") then
    .error (.valueError ("variation_category must be one of ['subtle', 'normal', 'high'], got '"
      ++ variation_category ++ "'"))
  else if ¬ (mv = "chirp-v4" ∨ mv = "chirp-v4-5-plus" ∨ mv = "chirp-v5") then
    .error (.valueError ("Model must be one of ['chirp-v4', 'chirp-v4-5-plus', 'chirp-v5'] for remaster, got '"
      ++ mv ++ "'"))
  else
    .ok (submit [("task_type", .str "remaster"),
                 ("continue_clip_id", .str clip_id),
                 ("variation_category", .str variation_category),
                 ("mv", .str mv)])

/-- `add_vocal` (lines 363-447): validates `vocal_gender`, `mv`, the three
weight parameters (each must satisfy `0 <= value <= 1`) and the time window,
in source order, then returns the reply with no `task_id` check. -/
def add_vocal (submit : Payload → ApiResponse) (clip_id prompt : String)
    (start_time end_time : Int) (tags : Option String)
    (style_weight weirdness_constraint audio_weight : ℚ)
    (vocal_gender mv : String) : Except ApiErr ApiResponse :=
  if ¬ (vocal_gender = "f" ∨ vocal_gender = "m") then
    .error (.valueError ("vocal_gender must be 'f' (female) or 'm' (male), got '"
      ++ vocal_gender ++ "'"))
  else if ¬ (mv = "chirp-v4-5-plus" ∨ mv = "chirp-v5") then
    .error (.valueError ("Model must be one of ['chirp-v4-5-plus', 'chirp-v5'] for add_vocal, got '"
      ++ mv ++ "'"))
  else if ¬ (0 ≤ style_weight ∧ style_weight ≤ 1) then
    .error (.valueError "style_weight must be between 0.0 and 1.0")
  else if ¬ (0 ≤ weirdness_constraint ∧ weirdness_constraint ≤ 1) then
    .error (.valueError "weirdness_constraint must be between 0.0 and 1.0")
  else if ¬ (0 ≤ audio_weight ∧ audio_weight ≤ 1) then
    .error (.valueError "audio_weight must be between 0.0 and 1.0")
  else if start_time < 0 then
    .error (.valueError "start_time must be >= 0")
  else if end_time ≤ start_time then
    .error (.valueError "end_time must be greater than start_time")
  else
    .ok (submit
      ([("task_type", .str "add_vocals"),
        ("continue_clip_id", .str clip_id),
        ("mv", .str mv),
        ("custom_mode", .bool true),
        ("prompt", .str prompt),
        ("style_weight", .rat style_weight),
        ("weirdness_constraint", .rat weirdness_constraint),
        ("audio_weight", .rat audio_weight),
        ("overpainting_start_s", .int start_time),
        ("overpainting_end_s", .int end_time),
        ("vocal_gender", .str vocal_gender)]
       ++ optStr "tags" tags))

/-- `stems_basic` (lines 449-460): returns the reply with no `task_id` check. -/
def stems_basic (submit : Payload → ApiResponse) (clip_id : String) :
    Except ApiErr ApiResponse :=
  .ok (submit [("clip_id", .str clip_id)])

/-- `stems_full` (lines 462-473): returns the reply with no `task_id` check. -/
def stems_full (submit : Payload → ApiResponse) (clip_id : String) :
    Except ApiErr ApiResponse :=
  .ok (submit [("clip_id", .str clip_id)])

/-- `create_persona` (lines 475-498): returns the reply with no `task_id`
check. -/
def create_persona (submit : Payload → ApiResponse) (clip_id name : String) :
    Except ApiErr ApiResponse :=
  .ok (submit [("clip_id", .str clip_id), ("name", .str name)])

/-- `create_music_with_persona` (lines 500-539): returns the reply with no
`task_id` check. -/
def create_music_with_persona (submit : Payload → ApiResponse)
    (persona_id prompt : String) (title tags : Option String)
    (custom_mode : Bool) (mv : String) : Except ApiErr ApiResponse :=
  let payload : Payload :=
    [("task_type", .str "persona_music"),
     ("persona_id", .str persona_id),
     ("prompt", .str prompt),
     ("custom_mode", .bool custom_mode),
     ("mv", .str mv)]
    ++ optStr "title" title
    ++ optStr "tags" tags
  .ok (submit payload)

/-! ## Genre catalog (`genre_templates.GENRE_TEMPLATES`,
`LyricsGenerator.get_genre_info`) -/

/-- One genre template: `{structure, characteristics, style_notes}` (the first
field is renamed `structure_` because `structure` is a Lean keyword). -/
structure GenreTemplate where
  structure_ : String
  characteristics : List String
  style_notes : String
  deriving DecidableEq, Repr

/-- The static genre table of genre_templates.py (lines 7-152), keyed by
canonical genre name. -/
def GENRE_TEMPLATES : List (String × GenreTemplate) :=
  [("pop",
    { structure_ := "Verse 1, Pre-Chorus, Chorus, Verse 2, Pre-Chorus, Chorus, Bridge, Chorus (repeat)",
      characteristics :=
        ["Catchy, repetitive hooks",
         "Simple, relatable themes (love, relationships, self-empowerment)",
         "3-4 minute length with radio-friendly structure",
         "Emphasis on memorable chorus with singalong quality",
         "Conversational, accessible language",
         "Strong rhythm and cadence for danceability"],
      style_notes := "Modern pop focuses on immediate emotional connection. Use simple vocabulary, repetition for emphasis, and ensure the chorus is instantly memorable. Themes should be universal and aspirational." }),
   ("rock",
    { structure_ := "Intro, Verse 1, Chorus, Verse 2, Chorus, Guitar Solo/Bridge, Chorus, Outro",
      characteristics :=
        ["Powerful, rebellious, or introspective themes",
         "Strong imagery and metaphors",
         "Emphasis on energy and emotional intensity",
         "Guitar-centric arrangements (leave space for solos)",
         "Verses build tension, chorus releases it",
         "Raw, authentic emotional expression"],
      style_notes := "Rock lyrics should have attitude and edge. Use vivid imagery, avoid being too polite. Themes of freedom, struggle, defiance, or deep emotion work well. Build momentum throughout the song." }),
   ("hip-hop",
    { structure_ := "Intro, Verse 1, Hook, Verse 2, Hook, Verse 3, Hook, Outro",
      characteristics :=
        ["Complex wordplay, metaphors, and double meanings",
         "Strong rhythmic flow with attention to syllable count",
         "Internal rhyme schemes (AABB, multis, slant rhymes)",
         "Storytelling or braggadocious themes",
         "Cultural references and authenticity",
         "Punchlines and quotable bars"],
      style_notes := "Hip-hop demands technical skill. Focus on rhythm, rhyme density, and clever wordplay. Each bar should have purpose. The hook should be catchy but the verses carry the weight. Authenticity and originality are crucial." }),
   ("country",
    { structure_ := "Verse 1, Chorus, Verse 2, Chorus, Bridge, Chorus",
      characteristics :=
        ["Storytelling with clear narrative arc",
         "Relatable, down-to-earth imagery",
         "Themes: heartbreak, home, family, rural life, patriotism",
         "Use of specific details (truck models, place names, etc.)",
         "Conversational, honest tone",
         "Often uses second-person 'you' addressing"],
      style_notes := "Country lyrics tell stories with heart. Use specific, concrete details rather than abstractions. The narrative should feel like a real person's experience. Emotional honesty over complexity." }),
   ("r&b",
    { structure_ := "Intro, Verse 1, Pre-Chorus, Chorus, Verse 2, Pre-Chorus, Chorus, Bridge, Chorus (with ad-libs)",
      characteristics :=
        ["Smooth, sensual romantic themes",
         "Vocal runs and melisma opportunities (oh, yeah, baby)",
         "Emotional vulnerability and intimacy",
         "Sophisticated melodic phrasing",
         "Second-person perspective (singing to lover)",
         "Metaphors for love and desire"],
      style_notes := "R&B is about feeling and groove. Write lyrics that leave space for vocal expression. Use sensory language. Themes should be emotionally intimate. The melody should flow naturally." }),
   ("jazz",
    { structure_ := "Flexible - often AABA or verse-chorus, with instrumental breaks",
      characteristics :=
        ["Sophisticated vocabulary and wordplay",
         "Complex emotional themes (bittersweet, nostalgic)",
         "Conversational, sometimes improvisational feel",
         "Classic themes: love, loss, city life, nightlife",
         "Poetic imagery and metaphor",
         "Timeless, elegant phrasing"],
      style_notes := "Jazz lyrics are literary. Use elevated language, clever turns of phrase, and subtle emotion. Classic jazz standards had sophistication—channel Cole Porter, Ella Fitzgerald era. Quality over quantity." }),
   ("blues",
    { structure_ := "12-bar blues pattern (AAB structure in lyrics)",
      characteristics :=
        ["Themes of hardship, heartbreak, struggle, resilience",
         "Call-and-response patterns",
         "Repetition of first line, then response",
         "Raw, honest emotional expression",
         "Use of blue notes and wailing spaces",
         "Personal testimony and life experience"],
      style_notes := "Blues lyrics are about struggle and survival. Use the classic AAB structure (repeat first line, then answer/resolve). Keep it real and raw. The emotion should feel lived-in and authentic." }),
   ("electronic",
    { structure_ := "Minimal vocals, repetitive hooks, emphasis on drops and builds",
      characteristics :=
        ["Sparse, repetitive lyrics",
         "Emphasis on rhythm and phonetics over meaning",
         "Euphoric or introspective themes",
         "Club/party atmosphere or existential reflection",
         "Vocal chops and repeated phrases",
         "Space for instrumental drops"],
      style_notes := "Electronic music lyrics are minimal and atmospheric. Focus on a few powerful phrases that repeat and build. Think about how the voice becomes an instrument. Less is more." }),
   ("folk",
    { structure_ := "Verse 1, Chorus, Verse 2, Chorus, Verse 3, Chorus",
      characteristics :=
        ["Narrative storytelling with moral or message",
         "Acoustic, organic feel",
         "Historical or traditional themes",
         "Social commentary and authenticity",
         "Simple, memorable melodies",
         "Often multiple verses telling a complete story"],
      style_notes := "Folk tells stories that matter. Use clear narrative, specific details, and authentic voice. Themes of community, history, and human experience. The story is paramount—let it unfold naturally." }),
   ("metal",
    { structure_ := "Intro, Verse 1, Pre-Chorus, Chorus, Verse 2, Pre-Chorus, Chorus, Breakdown, Solo, Chorus, Outro",
      characteristics :=
        ["Dark, intense themes (mythology, darkness, struggle, power)",
         "Epic imagery and metaphor",
         "Aggressive, powerful language",
         "Fast-paced delivery or dramatic dynamics",
         "Themes of conflict, darkness, triumph",
         "Technical precision in phrasing"],
      style_notes := "Metal demands intensity. Use powerful imagery, epic themes, and uncompromising emotion. Whether it's fantasy, darkness, or social critique, go all-in. The energy should match the music." }),
   ("indie",
    { structure_ := "Flexible, often unconventional song structures",
      characteristics :=
        ["Introspective, personal themes",
         "Quirky or unconventional perspectives",
         "Literary references and wordplay",
         "Emotional vulnerability with artistic distance",
         "Unique metaphors and imagery",
         "Authenticity over commercial appeal"],
      style_notes := "Indie embraces creativity and individuality. Don't be afraid of unconventional structure or esoteric references. Balance vulnerability with artistic craft. Authenticity is key." }),
   ("reggae",
    { structure_ := "Verse, Chorus, Verse, Chorus, Bridge (often with toasting/rap section), Chorus",
      characteristics :=
        ["Positive, uplifting messages or social commentary",
         "Themes: unity, peace, love, social justice, Rastafarian spirituality",
         "Repetitive, rhythmic phrasing for the groove",
         "Call-and-response elements",
         "Patois/Jamaican dialect considerations",
         "One-drop rhythm consciousness"],
      style_notes := "Reggae carries a message. Whether spiritual, political, or about love, there's purpose and positivity. The rhythm is crucial—phrase around the one-drop beat. Keep it conscious and uplifting." })]

/-- The alias table of `get_genre_info` (lyrics_generator.py lines 78-93). -/
def genre_mapping : List (String × String) :=
  [("hiphop", "hip-hop"),
   ("hip hop", "hip-hop"),
   ("rap", "hip-hop"),
   ("edm", "electronic"),
   ("dance", "electronic"),
   ("techno", "electronic"),
   ("house", "electronic"),
   ("rnb", "r&b"),
   ("rhythm and blues", "r&b"),
   ("alternative", "indie"),
   ("alt", "indie"),
   ("heavy metal", "metal"),
   ("death metal", "metal"),
   ("power metal", "metal")]

/-- `get_genre_info` (lines 65-109): lowercase and trim the input, rewrite it
through the alias table, look the result up in `GENRE_TEMPLATES`, and fall back
to the generic template — whose style note mentions the original, unnormalized
input — when the genre is unknown. -/
def get_genre_info (genre : String) : GenreTemplate :=
  let genre_lower := py_strip (py_lower genre)
  let normalized_genre :=
    (((genre_mapping.find? (fun p => p.1 = genre_lower)).map (·.2)).getD genre_lower)
  match (GENRE_TEMPLATES.find? (fun p => p.1 = normalized_genre)).map (·.2) with
  | some template => template
  | none =>
    { structure_ := "Verse 1, Chorus, Verse 2, Chorus, Bridge, Chorus",
      characteristics :=
        ["Genre-appropriate themes and language",
         "Clear song structure",
         "Memorable hooks and phrases"],
      style_notes := "Write authentic " ++ genre ++ " lyrics following the genre's conventions and characteristics." }

/-! ## Reply parsing (`LyricsGenerator.generate_lyrics`, lines 208-231) -/

/-- Python `a or b` for an optional string `a`: both `None` and the empty
string fall through to `b`. -/
def orStr (value : Option String) (fallback : String) : String :=
  match value with
  | none => fallback
  | some s => if s = "" then fallback else s

/-- Python `str.title()` on one character list: an alphabetic character is
uppercased after a non-alphabetic one and lowercased after an alphabetic one
(`prevAlpha` tracks whether the previous character was alphabetic). -/
def pyTitleGo : List Char → Bool → List Char
  | [], _ => []
  | c :: cs, prevAlpha =>
    (if c.isAlpha then (if prevAlpha then c.toLower else c.toUpper) else c)
      :: pyTitleGo cs c.isAlpha

/-- Python `str.title()`, used by the `f"Untitled {genre.title()} Song"`
fallback. -/
def pyTitle (s : String) : String :=
  String.mk (pyTitleGo s.data false)

/-- One iteration of the parsing loop (lines 216-222) over the state
`(parsed_title, parsed_tags, lyrics_lines)`: a line starting with `TITLE:`
assigns `parsed_title` (so a later such line overwrites an earlier one) to the
line with every occurrence of `'TITLE:'` removed (`str.replace` replaces all
occurrences, not just the prefix) and stripped; likewise `TAGS:`; every other
line is appended to `lyrics_lines`. -/
def scanStep (acc : Option String × Option String × List String) (line : String) :
    Option String × Option String × List String :=
  if py_startswith line "TITLE:" then
    (some (py_strip (py_replace line "TITLE:" "")), acc.2.1, acc.2.2)
  else if py_startswith line "TAGS:" then
    (acc.1, some (py_strip (py_replace line "TAGS:" "")), acc.2.2)
  else
    (acc.1, acc.2.1, acc.2.2 ++ [line])

/-- The dictionary `generate_lyrics` returns (lines 226-231). -/
structure LyricsResult where
  lyrics : String
  title : String
  genre : String
  suggested_tags : String
  deriving DecidableEq, Repr

/-- The reply-parsing and result-building tail of `generate_lyrics`
(lines 211-231): split the reply on newlines, run the parsing loop, join and
strip the non-matching lines into `lyrics`, and apply the Python `or`
fallback chains `parsed_title or title or f"Untitled {genre.title()} Song"`
and `parsed_tags or f"{genre}, original"`.  (`content` is the reply text,
which the caller has already stripped at line 208; `title` and `genre` are
the arguments of `generate_lyrics`.) -/
def parse_reply (content : String) (title : Option String) (genre : String) :
    LyricsResult :=
  let lines := py_split_nl content
  let parsed := lines.foldl scanStep (none, none, [])
  { lyrics := py_strip (String.intercalate "\n" parsed.2.2)
    title := orStr parsed.1 (orStr title ("Untitled " ++ pyTitle genre ++ " Song"))
    genre := genre
    suggested_tags := orStr parsed.2.1 (genre ++ ", original") }

/-! ## Theorems — polling engine (claims C1 to C4) -/

/-- The scripted `{type: "not_ready"}` envelope. -/
def notReadyEnvelope : Response :=
  { type := some "not_ready", code := none, data := none }

/-- The scripted `{code: 200, data: []}` envelope. -/
def emptyDataEnvelope : Response :=
  { type := none, code := some 200, data := some [] }

/-- The scripted `{code: 200, data: [{state: "processing"}]}` envelope. -/
def processingEnvelope : Response :=
  { type := none, code := some 200, data := some [{ state := some "processing", clip_id := none }] }

/-- The clip `{state: "succeeded", clip_id: "X"}`. -/
def succeededClipX : Clip :=
  { state := some "succeeded", clip_id := some "X" }

/-- The scripted `{code: 200, data: [{state: "succeeded", clip_id: "X"}]}`
envelope. -/
def succeededEnvelope : Response :=
  { type := none, code := some 200, data := some [succeededClipX] }

/-- The scripted sequence of claim C1: `not_ready`, empty data, processing,
then succeeded. -/
def happyScript : Nat → Response := fun attempt =>
  if attempt = 1 then notReadyEnvelope
  else if attempt = 2 then emptyDataEnvelope
  else if attempt = 3 then processingEnvelope
  else if attempt = 4 then succeededEnvelope
  else notReadyEnvelope

/-- The sleep counter never decreases across the polling loop. -/
theorem pollAux_sleeps_le (script : Nat → Response) (timeoutSeconds : Nat) :
    ∀ (remaining attempt sleeps : Nat),
      sleeps ≤ (pollAux script timeoutSeconds attempt remaining sleeps).2 := by
  intro remaining
  induction remaining with
  | zero => intro attempt sleeps; simp [pollAux]
  | succ n ih =>
    intro attempt sleeps
    simp only [pollAux]
    cases h : pollStep (script attempt) with
    | waiting => exact le_trans (Nat.le_succ _) (ih (attempt + 1) (sleeps + 1))
    | succeeded clip => exact Nat.le_succ _
    | failed state => exact Nat.le_succ _

/-- C1: for the scripted sequence `[not_ready, {code:200,data:[]},
{code:200,data:[{state:"processing"}]}, {code:200,data:[{state:"succeeded",
clip_id:"X"}]}]` and `max_attempts = 10`, `poll_until_complete` treats the
first three replies as waiting and returns the succeeded clip on the 4th
attempt, having slept exactly 4 times, whatever the interval; and (second
conjunct) on any script and any positive budget the loop sleeps at least once
before anything else happens — the first status query is always preceded by a
sleep, so the engine never queries immediately on submission. -/
theorem C1_scripted_happy_path :
    (∀ interval : Nat,
      poll_until_complete happyScript 10 interval
        = (.success (.single succeededClipX), 4))
    ∧ ∀ (script : Nat → Response) (m interval : Nat),
        1 ≤ (poll_until_complete script (m + 1) interval).2 := by
  constructor
  · intro interval
    rfl
  · intro script m interval
    show 1 ≤ (pollAux script ((m + 1) * interval) 1 (m + 1) 0).2
    simp only [pollAux]
    cases h : pollStep (script 1) with
    | waiting => exact pollAux_sleeps_le script ((m + 1) * interval) m 2 1
    | succeeded clip => exact le_refl 1
    | failed state => exact le_refl 1

/-- A stems-like succeeded clip (“vocals”). -/
def vocalStem : Clip := { state := some "succeeded", clip_id := some "vocals" }

/-- A second stems-like succeeded clip (“instrumental”). -/
def instrumentalStem : Clip := { state := some "succeeded", clip_id := some "instrumental" }

/-- A multi-result reply, as a stems job produces: two clips in `data`. -/
def stemsEnvelope : Response :=
  { type := none, code := some 200, data := some [vocalStem, instrumentalStem] }

/-- A script that always answers with the two-clip stems reply. -/
def stemsScript : Nat → Response := fun _ => stemsEnvelope

/-- C2 counterexample: on a multi-result (stems-like) reply whose `data` holds
two clips, `poll_until_complete` returns the single first clip after one
attempt — the value returned is not the full clip list, so the claim's
"returns the full clip list for multi-result jobs such as stems" is false. -/
theorem C2_counterexample :
    poll_until_complete stemsScript 5 1 = (.success (.single vocalStem), 1)
    ∧ PollRet.single vocalStem ≠ PollRet.many [vocalStem, instrumentalStem] := by
  exact ⟨rfl, by decide⟩

/-- C2 (amended): when a polling attempt observes a normal envelope (not
`not_ready`, code 200) whose first ClipResult has state `"succeeded"`, the
loop returns on that very attempt — one further sleep, no waiting for other
entries to converge, regardless of the remaining budget — and the value
returned is always the single first ClipResult, never the full list, whatever
further clips `cs` the reply carries. (`poll_until_complete script m i` is
`pollAux script (m * i) 1 m 0`, so `attempt`, `remaining`, `sleeps` range over
every reachable loop state.) -/
theorem C2_amended (script : Nat → Response)
    (timeoutSeconds attempt remaining sleeps : Nat) (c : Clip) (cs : List Clip)
    (hnr : (script attempt).type ≠ some "not_ready")
    (hcode : (script attempt).code = some 200)
    (hdata : (script attempt).data = some (c :: cs))
    (hstate : c.state = some "succeeded") :
    pollAux script timeoutSeconds attempt (remaining + 1) sleeps
      = (.success (.single c), sleeps + 1) := by
  have hstep : pollStep (script attempt) = .succeeded c := by
    simp [pollStep, hnr, hcode, hdata, hstate]
  simp [pollAux, hstep]

/-- Witness for C2 (amended), at the stems script: the first attempt returns
the single first clip after one sleep. -/
theorem C2_amended_witness :
    pollAux stemsScript 5 1 (4 + 1) 0 = (.success (.single vocalStem), 0 + 1) :=
  C2_amended stemsScript 5 1 4 0 vocalStem [instrumentalStem]
    (by decide) (by decide) (by decide) (by decide)

/-- C3: when a polling attempt observes a normal envelope whose first
ClipResult's state is `"error"` or `"failed"`, the loop raises
`SunoAPIError("Generation failed with state: …")` carrying that very state
string on that same attempt: exactly one further sleep (hence exactly one
further status query, since every query is preceded by exactly one sleep) and
no further iterations, whatever `remaining` budget is left. -/
theorem C3_failed_is_terminal (script : Nat → Response)
    (timeoutSeconds attempt remaining sleeps : Nat) (c : Clip) (cs : List Clip)
    (state : String)
    (hnr : (script attempt).type ≠ some "not_ready")
    (hcode : (script attempt).code = some 200)
    (hdata : (script attempt).data = some (c :: cs))
    (hstate : c.state = some state)
    (hterm : state = "error" ∨ state = "failed") :
    pollAux script timeoutSeconds attempt (remaining + 1) sleeps
      = (.jobFailed state, sleeps + 1) := by
  have hne : ¬ state = "succeeded" := by
    rcases hterm with rfl | rfl <;> decide
  have hstep : pollStep (script attempt) = .failed state := by
    simp [pollStep, hnr, hcode, hdata, hstate, hne, hterm]
  simp [pollAux, hstep]

/-- The scripted `{code:200, data:[{state:"error"}]}` envelope. -/
def errorEnvelope : Response :=
  { type := none, code := some 200, data := some [{ state := some "error", clip_id := none }] }

/-- Witness for C3: an `error` reply on the first attempt ends the poll at
once, with 9 attempts of budget left unused. -/
theorem C3_failed_is_terminal_witness :
    pollAux (fun _ => errorEnvelope) 150 1 (9 + 1) 0 = (.jobFailed "error", 0 + 1) :=
  C3_failed_is_terminal (fun _ => errorEnvelope) 150 1 9 0
    { state := some "error", clip_id := none } [] "error"
    (by decide) (by decide) (by decide) (by decide) (Or.inl rfl)

/-- A run of waiting attempts adds one sleep per attempt and ends in the
timeout outcome. -/
theorem pollAux_all_waiting (script : Nat → Response) (timeoutSeconds : Nat) :
    ∀ (remaining attempt sleeps : Nat),
      (∀ k, attempt ≤ k → k < attempt + remaining → pollStep (script k) = .waiting) →
      pollAux script timeoutSeconds attempt remaining sleeps
        = (.timeout timeoutSeconds, sleeps + remaining) := by
  intro remaining
  induction remaining with
  | zero => intro attempt sleeps _; simp [pollAux]
  | succ n ih =>
    intro attempt sleeps hw
    have h0 : pollStep (script attempt) = .waiting :=
      hw attempt (le_refl _) (by omega)
    have hrest : ∀ k, attempt + 1 ≤ k → k < attempt + 1 + n →
        pollStep (script k) = .waiting := by
      intro k hk1 hk2
      exact hw k (by omega) (by omega)
    simp only [pollAux, h0]
    rw [ih (attempt + 1) (sleeps + 1) hrest]
    congr 1
    omega

/-- C4: when every one of the `max_attempts` polling attempts observes a
non-terminal reply (`pollStep` classifies it as waiting: `not_ready`,
`code != 200`, missing or empty `data`, or a non-terminal state),
`poll_until_complete` ends in the timeout error after exactly `max_attempts`
sleeps, and the error reports the elapsed budget
`max_attempts * interval` seconds. -/
theorem C4_timeout_after_budget (script : Nat → Response)
    (max_attempts interval : Nat)
    (hw : ∀ k, 1 ≤ k → k ≤ max_attempts → pollStep (script k) = .waiting) :
    poll_until_complete script max_attempts interval
      = (.timeout (max_attempts * interval), max_attempts) := by
  show pollAux script (max_attempts * interval) 1 max_attempts 0 = _
  rw [pollAux_all_waiting script (max_attempts * interval) max_attempts 1 0]
  · rw [Nat.zero_add]
  · intro k hk1 hk2
    exact hw k hk1 (by omega)

/-- Witness for C4: an all-`not_ready` script of length 3 with interval 7
times out after 3 sleeps reporting 21 seconds. -/
theorem C4_timeout_after_budget_witness :
    poll_until_complete (fun _ => notReadyEnvelope) 3 7 = (.timeout (3 * 7), 3) :=
  C4_timeout_after_budget (fun _ => notReadyEnvelope) 3 7 (fun _ _ _ => rfl)

/-! ## Theorems — MIDI retrieval (claim C9) -/

/-- The MIDI loop's sleep count never exceeds the sleeps still allowed. -/
theorem getMidiGo_sleeps_le (script : Nat → MidiResponse) :
    ∀ (remaining attempt sleeps : Nat),
      (getMidiGo script attempt remaining sleeps).2 ≤ sleeps + remaining := by
  intro remaining
  induction remaining with
  | zero => intro attempt sleeps; simp [getMidiGo]
  | succ n ih =>
    intro attempt sleeps
    simp only [getMidiGo]
    by_cases h : midiReady (script attempt)
    · simp [h]
    · simp only [h, if_false, Bool.false_eq_true]
      calc (getMidiGo script (attempt + 1) n (sleeps + 1)).2
          ≤ (sleeps + 1) + n := ih (attempt + 1) (sleeps + 1)
        _ ≤ sleeps + (n + 1) := by omega

/-- When no reply up to the last allowed sleep is ready, the MIDI loop walks
through every attempt, sleeping once per step, and ends at the final attempt's
reply. -/
theorem getMidiGo_all_unready (script : Nat → MidiResponse) :
    ∀ (remaining attempt sleeps : Nat),
      (∀ k, attempt ≤ k → k < attempt + remaining → midiReady (script k) = false) →
      getMidiGo script attempt remaining sleeps
        = (script (attempt + remaining), sleeps + remaining) := by
  intro remaining
  induction remaining with
  | zero => intro attempt sleeps _; simp [getMidiGo]
  | succ n ih =>
    intro attempt sleeps hu
    have h0 : midiReady (script attempt) = false :=
      hu attempt (le_refl _) (by omega)
    simp only [getMidiGo, h0, Bool.false_eq_true, if_false]
    rw [ih (attempt + 1) (sleeps + 1) (fun k hk1 hk2 => hu k (by omega) (by omega))]
    congr 1
    · congr 1; omega
    · omega

/-- C9: in `get_midi`, the status query precedes the sleep within each attempt:
a reply that is ready on the very first attempt is returned after zero sleeps
(first conjunct — never a sleep before the first query), the total number of
sleeps is at most `max_attempts - 1` (second conjunct), and when no attempt
yields a ready reply (code 200, a `data` field, and a truthy `midi_url` not
starting with `"Failed"`), `get_midi` returns the last attempt's reply
unchanged rather than raising a timeout error — unlike `poll_until_complete`,
whose exhausted budget is a `PollOutcome.timeout` error (third conjunct). -/
theorem C9_get_midi_contract :
    (∀ (script : Nat → MidiResponse) (m : Nat),
        midiReady (script 0) = true → get_midi script (m + 1) = some (script 0, 0))
    ∧ (∀ (script : Nat → MidiResponse) (m : Nat) (r : MidiResponse) (s : Nat),
        get_midi script m = some (r, s) → s ≤ m - 1)
    ∧ (∀ (script : Nat → MidiResponse) (m : Nat),
        (∀ k, k < m + 1 → midiReady (script k) = false) →
        get_midi script (m + 1) = some (script m, m)) := by
  refine ⟨?_, ?_, ?_⟩
  · intro script m h
    cases m with
    | zero => rfl
    | succ n => simp [get_midi, getMidiGo, h]
  · intro script m r s h
    cases m with
    | zero => simp [get_midi] at h
    | succ n =>
      simp only [get_midi, Nat.succ_ne_zero, if_false, Option.some_inj] at h
      have := getMidiGo_sleeps_le script (n + 1 - 1) 0 0
      rw [h] at this
      simpa using this
  · intro script m hu
    have h := getMidiGo_all_unready script m 0 0
      (fun k hk1 hk2 => hu k (by omega))
    simp only [get_midi, Nat.succ_ne_zero, if_false, Nat.add_one_sub_one]
    rw [h]
    simp

/-- A never-ready MIDI reply (`midi_url` starts with `"Failed"`). -/
def failedMidi : MidiResponse :=
  { code := some 200, data := some { midi_url := some "Failed to generate midi" } }

/-- Witness for C9: five all-unready attempts return the last reply after four
sleeps. -/
theorem C9_get_midi_contract_witness :
    get_midi (fun _ => failedMidi) (4 + 1) = some ((fun _ => failedMidi) 4, 4) :=
  C9_get_midi_contract.2.2 (fun _ => failedMidi) 4
    (fun _ _ => show midiReady failedMidi = false by decide)

/-! ## Theorems — genre catalog (claim C7) -/

/-- C7: every alias of the fixed alias table resolves to exactly the same
template as looking the canonical name up directly: `"hiphop"`, `"hip hop"`,
`"rap"` → `"hip-hop"`; `"edm"`, `"dance"`, `"techno"`, `"house"` →
`"electronic"`; `"rnb"`, `"rhythm and blues"` → `"r&b"`; `"alternative"`,
`"alt"` → `"indie"`; `"heavy metal"`, `"death metal"`, `"power metal"` →
`"metal"`.  The last conjunct checks the lowercasing/trimming of the input on
a mixed-case, padded alias. -/
theorem C7_alias_lookup :
    get_genre_info "hiphop" = get_genre_info "hip-hop"
    ∧ get_genre_info "hip hop" = get_genre_info "hip-hop"
    ∧ get_genre_info "rap" = get_genre_info "hip-hop"
    ∧ get_genre_info "edm" = get_genre_info "electronic"
    ∧ get_genre_info "dance" = get_genre_info "electronic"
    ∧ get_genre_info "techno" = get_genre_info "electronic"
    ∧ get_genre_info "house" = get_genre_info "electronic"
    ∧ get_genre_info "rnb" = get_genre_info "r&b"
    ∧ get_genre_info "rhythm and blues" = get_genre_info "r&b"
    ∧ get_genre_info "alternative" = get_genre_info "indie"
    ∧ get_genre_info "alt" = get_genre_info "indie"
    ∧ get_genre_info "heavy metal" = get_genre_info "metal"
    ∧ get_genre_info "death metal" = get_genre_info "metal"
    ∧ get_genre_info "power metal" = get_genre_info "metal"
    ∧ get_genre_info " Heavy Metal " = get_genre_info "metal" :=
  ⟨rfl, rfl, rfl, rfl, rfl, rfl, rfl, rfl, rfl, rfl, rfl, rfl, rfl, rfl, rfl⟩

/-! ## Theorems — reply parsing (claim C8) -/

/-- A line that takes the `TITLE:` branch of the parsing loop. -/
def isTitleLine (l : String) : Bool := py_startswith l "TITLE:"

/-- A line that takes the `TAGS:` branch: the loop's `elif` only sees lines
that did not start with `TITLE:` (no string starts with both prefixes anyway,
as they differ in their second character). -/
def isTagsLine (l : String) : Bool :=
  !py_startswith l "TITLE:" && py_startswith l "TAGS:"

/-- A line that reaches the `else` branch and is collected into the lyrics. -/
def isOtherLine (l : String) : Bool :=
  !py_startswith l "TITLE:" && !py_startswith l "TAGS:"

/-- The parsing loop collects exactly the non-`TITLE:`/non-`TAGS:` lines, in
order, into the lyrics component. -/
theorem scan_lyrics (ls : List String) :
    ∀ (t g : Option String) (acc : List String),
      (ls.foldl scanStep (t, g, acc)).2.2 = acc ++ ls.filter isOtherLine := by
  induction ls with
  | nil => intro t g acc; simp
  | cons l ls ih =>
    intro t g acc
    simp only [List.foldl_cons, List.filter_cons]
    by_cases h1 : py_startswith l "TITLE:"
    · simp only [scanStep, h1, if_true, isOtherLine, Bool.not_true, Bool.false_and,
        Bool.false_eq_true, if_false]
      exact ih _ _ _
    · by_cases h2 : py_startswith l "TAGS:"
      · simp only [scanStep, h1, h2, Bool.false_eq_true, if_false, if_true,
          isOtherLine, Bool.not_true, Bool.and_false, Bool.false_eq_true]
        exact ih _ _ _
      · simp only [scanStep, h1, h2, Bool.false_eq_true, if_false, isOtherLine,
          Bool.not_false, Bool.and_self, if_true]
        rw [ih _ _ _]
        simp

/-- With no `TITLE:` line, the title component keeps its incoming value. -/
theorem scan_title_of_none (ls : List String) :
    ∀ (t g : Option String) (acc : List String),
      ls.filter isTitleLine = [] → (ls.foldl scanStep (t, g, acc)).1 = t := by
  induction ls with
  | nil => intro t g acc _; rfl
  | cons l ls ih =>
    intro t g acc h
    simp only [List.filter_cons] at h
    by_cases h1 : py_startswith l "TITLE:"
    · simp [isTitleLine, h1] at h
    · have h' : ls.filter isTitleLine = [] := by
        simpa [isTitleLine, h1] using h
      simp only [List.foldl_cons]
      by_cases h2 : py_startswith l "TAGS:"
      · simp only [scanStep, h1, Bool.false_eq_true, if_false, h2, if_true]
        exact ih _ _ _ h'
      · simp only [scanStep, h1, h2, Bool.false_eq_true, if_false]
        exact ih _ _ _ h'

/-- With exactly one `TITLE:` line, the title component ends as that line with
every `'TITLE:'` occurrence removed and stripped. -/
theorem scan_title_of_one (ls : List String) :
    ∀ (t g : Option String) (acc : List String) (x : String),
      ls.filter isTitleLine = [x] →
      (ls.foldl scanStep (t, g, acc)).1
        = some (py_strip (py_replace x "TITLE:" "")) := by
  induction ls with
  | nil => intro t g acc x h; simp at h
  | cons l ls ih =>
    intro t g acc x h
    simp only [List.filter_cons] at h
    by_cases h1 : py_startswith l "TITLE:"
    · have h5 : l :: ls.filter isTitleLine = [x] := by
        rwa [if_pos (show isTitleLine l = true by simp [isTitleLine, h1])] at h
      simp only [List.cons.injEq] at h5
      simp only [List.foldl_cons, scanStep, h1, if_true]
      rw [scan_title_of_none ls _ _ _ h5.2, h5.1]
    · have h' : ls.filter isTitleLine = [x] := by
        simpa [isTitleLine, h1] using h
      simp only [List.foldl_cons]
      by_cases h2 : py_startswith l "TAGS:"
      · simp only [scanStep, h1, Bool.false_eq_true, if_false, h2, if_true]
        exact ih _ _ _ _ h'
      · simp only [scanStep, h1, h2, Bool.false_eq_true, if_false]
        exact ih _ _ _ _ h'

/-- With no line in the `TAGS:` branch, the tags component keeps its incoming
value. -/
theorem scan_tags_of_none (ls : List String) :
    ∀ (t g : Option String) (acc : List String),
      ls.filter isTagsLine = [] → (ls.foldl scanStep (t, g, acc)).2.1 = g := by
  induction ls with
  | nil => intro t g acc _; rfl
  | cons l ls ih =>
    intro t g acc h
    simp only [List.filter_cons] at h
    by_cases h1 : py_startswith l "TITLE:"
    · have h' : ls.filter isTagsLine = [] := by
        simpa [isTagsLine, h1] using h
      simp only [List.foldl_cons, scanStep, h1, if_true]
      exact ih _ _ _ h'
    · by_cases h2 : py_startswith l "TAGS:"
      · simp [isTagsLine, h1, h2] at h
      · have h' : ls.filter isTagsLine = [] := by
          simpa [isTagsLine, h1, h2] using h
        simp only [List.foldl_cons, scanStep, h1, h2, Bool.false_eq_true, if_false]
        exact ih _ _ _ h'

/-- With exactly one line in the `TAGS:` branch, the tags component ends as
that line with every `'TAGS:'` occurrence removed and stripped. -/
theorem scan_tags_of_one (ls : List String) :
    ∀ (t g : Option String) (acc : List String) (x : String),
      ls.filter isTagsLine = [x] →
      (ls.foldl scanStep (t, g, acc)).2.1
        = some (py_strip (py_replace x "TAGS:" "")) := by
  induction ls with
  | nil => intro t g acc x h; simp at h
  | cons l ls ih =>
    intro t g acc x h
    simp only [List.filter_cons] at h
    by_cases h1 : py_startswith l "TITLE:"
    · have h' : ls.filter isTagsLine = [x] := by
        simpa [isTagsLine, h1] using h
      simp only [List.foldl_cons, scanStep, h1, if_true]
      exact ih _ _ _ _ h'
    · by_cases h2 : py_startswith l "TAGS:"
      · have h5 : l :: ls.filter isTagsLine = [x] := by
          rwa [if_pos (show isTagsLine l = true by simp [isTagsLine, h1, h2])] at h
        simp only [List.cons.injEq] at h5
        simp only [List.foldl_cons, scanStep, h1, Bool.false_eq_true, if_false,
          h2, if_true]
        rw [scan_tags_of_none ls _ _ _ h5.2, h5.1]
      · have h' : ls.filter isTagsLine = [x] := by
          simpa [isTagsLine, h1, h2] using h
        simp only [List.foldl_cons, scanStep, h1, h2, Bool.false_eq_true, if_false]
        exact ih _ _ _ _ h'

/-- C8 (amended): for a reply whose line list has exactly one `TITLE:` line
`tl` and exactly one line `gl` in the `TAGS:` branch, the parsed lyrics are
the remaining lines joined by newline and stripped; the title is `tl` with
every occurrence of the substring `'TITLE:'` removed (the code's
`line.replace('TITLE:','')` is not a prefix strip) and stripped — except that,
when that string is empty, Python's `or` chain falls back to the caller title
or `"Untitled <Genre> Song"` — and the tags are `gl` with every `'TAGS:'`
occurrence removed and stripped, falling back to `"<genre>, original"` when
empty. -/
theorem C8_amended (content : String) (title : Option String) (genre : String)
    (tl gl : String)
    (ht : (py_split_nl content).filter isTitleLine = [tl])
    (hg : (py_split_nl content).filter isTagsLine = [gl]) :
    parse_reply content title genre =
      { lyrics := py_strip (String.intercalate "\n"
          ((py_split_nl content).filter isOtherLine)),
        title := orStr (some (py_strip (py_replace tl "TITLE:" "")))
          (orStr title ("Untitled " ++ pyTitle genre ++ " Song")),
        genre := genre,
        suggested_tags := orStr (some (py_strip (py_replace gl "TAGS:" "")))
          (genre ++ ", original") } := by
  have h1 := scan_lyrics (py_split_nl content) none none []
  have h2 := scan_title_of_one (py_split_nl content) none none [] tl ht
  have h3 := scan_tags_of_one (py_split_nl content) none none [] gl hg
  simp only [parse_reply, h1, h2, h3, List.nil_append]

/-- Witness for C8 (amended), on the well-formed reply
`"TITLE: My Song\nTAGS: pop, fun\n[Verse 1]\nla la"`. -/
theorem C8_amended_witness :
    parse_reply "TITLE: My Song\nTAGS: pop, fun\n[Verse 1]\nla la" none "pop"
      = { lyrics := py_strip (String.intercalate "\n"
            ((py_split_nl "TITLE: My Song\nTAGS: pop, fun\n[Verse 1]\nla la").filter isOtherLine)),
          title := orStr (some (py_strip (py_replace "TITLE: My Song" "TITLE:" "")))
            (orStr none ("Untitled " ++ pyTitle "pop" ++ " Song")),
          genre := "pop",
          suggested_tags := orStr (some (py_strip (py_replace "TAGS: pop, fun" "TAGS:" "")))
            ("pop" ++ ", original") } :=
  C8_amended "TITLE: My Song\nTAGS: pop, fun\n[Verse 1]\nla la" none "pop"
    "TITLE: My Song" "TAGS: pop, fun" (by decide) (by decide)

/-- C8 counterexample: the reply `"TITLE: TITLE:\nTAGS: pop\nla la"` has
exactly one line beginning with `TITLE:` whose content after stripping the
prefix is `" TITLE:"` (or `"TITLE:"` once trimmed), yet the parsed title is
the fallback `"Untitled Pop Song"`: `replace` removed both occurrences of
`'TITLE:'`, the remaining spaces were stripped to the empty string, and
Python's `or` discarded it — so the claim's "title equals the TITLE line
content after stripping the prefix" is false. -/
theorem C8_counterexample :
    parse_reply "TITLE: TITLE:\nTAGS: pop\nla la" none "pop"
      = { lyrics := "la la", title := "Untitled Pop Song", genre := "pop",
          suggested_tags := "pop" }
    ∧ String.mk ("TITLE: TITLE:".data.drop 6) = " TITLE:"
    ∧ py_strip " TITLE:" = "TITLE:"
    ∧ ("Untitled Pop Song" : String) ≠ " TITLE:"
    ∧ ("Untitled Pop Song" : String) ≠ "TITLE:" :=
  ⟨rfl, rfl, rfl, by decide, by decide⟩

/-! ## Theorems — job submission (claims C5, C6, C10) -/

/-- Payload lookup distributes over concatenation, first binding winning. -/
theorem payloadGet_append (p q : Payload) (k : String) :
    payloadGet (p ++ q) k = (payloadGet p k).or (payloadGet q k) := by
  unfold payloadGet
  rw [List.find?_append]
  cases List.find? (fun e => e.1 = k) p <;> simp

/-- An optional string field never contributes a different key. -/
theorem payloadGet_optStr_ne (key k : String) (h : ¬k = key) (v : Option String) :
    payloadGet (optStr key v) k = none := by
  have h' : ¬(key = k) := fun e => h e.symm
  cases v with
  | none => rfl
  | some s => by_cases hs : s = "" <;> simp [optStr, hs, payloadGet, h']

/-- An optional numeric field never contributes a different key. -/
theorem payloadGet_optNum_ne (key k : String) (h : ¬k = key) (v : Option ℚ) :
    payloadGet (optNum key v) k = none := by
  have h' : ¬(key = k) := fun e => h e.symm
  cases v with
  | none => rfl
  | some q => simp [optNum, payloadGet, h']

/-- C10: whatever the optional arguments, the `create_music` wire payload
carries the prompt under exactly one of two keys: under
`gpt_description_prompt` with no `prompt` key when `make_instrumental` is
true, and under `prompt` with no `gpt_description_prompt` key when it is
false. -/
theorem C10_prompt_key_by_instrumental (prompt : String)
    (title tags : Option String) (style_weight weirdness_constraint : Option ℚ)
    (negative_tags : Option String) (custom_mode : Bool) (mv : String) :
    (payloadGet (create_music_payload prompt title tags style_weight
        weirdness_constraint negative_tags custom_mode true mv)
        "gpt_description_prompt" = some (.str prompt)
      ∧ payloadGet (create_music_payload prompt title tags style_weight
        weirdness_constraint negative_tags custom_mode true mv) "prompt" = none)
    ∧ (payloadGet (create_music_payload prompt title tags style_weight
        weirdness_constraint negative_tags custom_mode false mv)
        "prompt" = some (.str prompt)
      ∧ payloadGet (create_music_payload prompt title tags style_weight
        weirdness_constraint negative_tags custom_mode false mv)
        "gpt_description_prompt" = none) := by
  refine ⟨⟨?_, ?_⟩, ?_, ?_⟩ <;>
    simp only [create_music_payload, if_true, if_false, List.append_assoc,
      payloadGet_append, Bool.false_eq_true,
      payloadGet_optStr_ne "title" "prompt" (by decide),
      payloadGet_optStr_ne "tags" "prompt" (by decide),
      payloadGet_optNum_ne "style_weight" "prompt" (by decide),
      payloadGet_optNum_ne "weirdness_constraint" "prompt" (by decide),
      payloadGet_optStr_ne "negative_tags" "prompt" (by decide),
      payloadGet_optStr_ne "title" "gpt_description_prompt" (by decide),
      payloadGet_optStr_ne "tags" "gpt_description_prompt" (by decide),
      payloadGet_optNum_ne "style_weight" "gpt_description_prompt" (by decide),
      payloadGet_optNum_ne "weirdness_constraint" "gpt_description_prompt" (by decide),
      payloadGet_optStr_ne "negative_tags" "gpt_description_prompt" (by decide)] <;>
    simp [payloadGet, List.find?]

/-- C5 counterexample: `extend_music`, given a submission reply that lacks
`task_id`, returns that reply to the caller instead of raising a protocol
error — so the claim's "every job-submission operation raises" is false. -/
theorem C5_counterexample :
    extend_music (fun _ => [("detail", Val.str "x")]) "clip-1" "" 0 none none
      true "chirp-v5" = .ok [("detail", Val.str "x")]
    ∧ hasKey [("detail", Val.str "x")] "task_id" = false :=
  ⟨rfl, by decide⟩

/-- C5 (amended): only `create_music` checks the submission reply — whenever
the network answers without a `task_id` field it raises
`SunoAPIError("No task_id in response")`, a protocol error distinct from the
`ValueError` used for validation — while extend, concat, cover, stems (basic
and full), persona, persona-music, remaster and add-vocal return whatever
reply the network gave (`isOk`, never an error) with no `task_id` check. -/
theorem C5_amended :
    (∀ (submit : Payload → ApiResponse) prompt title tags style_weight
        weirdness_constraint negative_tags custom_mode make_instrumental mv,
      (∀ p, hasKey (submit p) "task_id" = false) →
      create_music submit prompt title tags style_weight weirdness_constraint
        negative_tags custom_mode make_instrumental mv
        = .error (.sunoAPIError "No task_id in response"))
    ∧ (∀ (submit : Payload → ApiResponse) a b c d e f g,
        (extend_music submit a b c d e f g).isOk = true)
    ∧ (∀ (submit : Payload → ApiResponse) a, (concat_music submit a).isOk = true)
    ∧ (∀ (submit : Payload → ApiResponse) a b c d e f,
        (cover_music submit a b c d e f).isOk = true)
    ∧ (∀ (submit : Payload → ApiResponse) a, (stems_basic submit a).isOk = true)
    ∧ (∀ (submit : Payload → ApiResponse) a, (stems_full submit a).isOk = true)
    ∧ (∀ (submit : Payload → ApiResponse) a b,
        (create_persona submit a b).isOk = true)
    ∧ (∀ (submit : Payload → ApiResponse) a b c d e f,
        (create_music_with_persona submit a b c d e f).isOk = true)
    ∧ (∀ (submit : Payload → ApiResponse) clip_id,
        (remaster submit clip_id "normal" "chirp-v5").isOk = true)
    ∧ (∀ (submit : Payload → ApiResponse),
        (add_vocal submit "clip-1" "la" 0 10 none (1/2) (3/10) (7/10) "f"
          "chirp-v5").isOk = true) := by
  refine ⟨?_, ?_, ?_, ?_, ?_, ?_, ?_, ?_, ?_, ?_⟩
  · intro submit prompt title tags sw wc nt cm mi mv hno
    simp [create_music, hno]
  · intro submit a b c d e f g; rfl
  · intro submit a; rfl
  · intro submit a b c d e f; rfl
  · intro submit a; rfl
  · intro submit a; rfl
  · intro submit a b; rfl
  · intro submit a b c d e f; rfl
  · intro submit clip_id
    simp [remaster, Except.isOk, Except.toBool]
  · intro submit
    norm_num [add_vocal, Except.isOk, Except.toBool]

/-- Witness for C5 (amended): a network that always answers `{}` makes
`create_music` raise the protocol error. -/
theorem C5_amended_witness :
    create_music (fun _ => []) "la" none none none none none true false
      "chirp-v5" = .error (.sunoAPIError "No task_id in response") :=
  C5_amended.1 (fun _ => []) "la" none none none none none true false
    "chirp-v5" (fun _ => rfl)

/-- C6 counterexample: `create_music` with `style_weight = 1.5` does not raise
a validation error — it makes the network call and returns its reply, and the
out-of-range weight is forwarded in the wire payload — so the claim's "for
every job kind carrying a style_weight parameter (Create and AddVocal),
style_weight = 1.5 raises a validation error before any network call" is
false for Create. -/
theorem C6_counterexample :
    create_music (fun _ => [("task_id", Val.str "T")]) "la" none none
      (some (3 / 2)) none none true false "chirp-v5"
      = .ok [("task_id", Val.str "T")]
    ∧ payloadGet (create_music_payload "la" none none (some (3 / 2)) none none
        true false "chirp-v5") "style_weight" = some (.rat (3 / 2)) :=
  ⟨rfl, rfl⟩

/-- C6 (amended): only AddVocal enforces the weight range. `add_vocal` rejects
`style_weight = 1.5` with a `ValueError` before any network call (the result
does not depend on `submit`), accepts the inclusive boundaries 0.0 and 1.0,
and applies the same `[0, 1]` check to `weirdness_constraint` and
`audio_weight`; `create_music` never raises a `ValueError` at all — any
`style_weight`, including 1.5, reaches the network. -/
theorem C6_amended :
    (∀ submit : Payload → ApiResponse,
      add_vocal submit "clip-1" "la" 0 10 none (3 / 2) (3 / 10) (7 / 10) "f"
        "chirp-v5" = .error (.valueError "style_weight must be between 0.0 and 1.0"))
    ∧ (∀ submit : Payload → ApiResponse,
      add_vocal submit "clip-1" "la" 0 10 none (1 / 2) (3 / 2) (7 / 10) "f"
        "chirp-v5" = .error (.valueError "weirdness_constraint must be between 0.0 and 1.0"))
    ∧ (∀ submit : Payload → ApiResponse,
      add_vocal submit "clip-1" "la" 0 10 none (1 / 2) (3 / 10) (3 / 2) "f"
        "chirp-v5" = .error (.valueError "audio_weight must be between 0.0 and 1.0"))
    ∧ (∀ submit : Payload → ApiResponse,
      (add_vocal submit "clip-1" "la" 0 10 none 0 0 0 "f" "chirp-v5").isOk = true)
    ∧ (∀ submit : Payload → ApiResponse,
      (add_vocal submit "clip-1" "la" 0 10 none 1 1 1 "f" "chirp-v5").isOk = true)
    ∧ (∀ (submit : Payload → ApiResponse) prompt title tags style_weight
        weirdness_constraint negative_tags custom_mode make_instrumental mv msg,
      create_music submit prompt title tags style_weight weirdness_constraint
        negative_tags custom_mode make_instrumental mv ≠ .error (.valueError msg)) := by
  refine ⟨?_, ?_, ?_, ?_, ?_, ?_⟩
  · intro submit; norm_num [add_vocal]
  · intro submit; norm_num [add_vocal]
  · intro submit; norm_num [add_vocal]
  · intro submit; norm_num [add_vocal, Except.isOk, Except.toBool]
  · intro submit; norm_num [add_vocal, Except.isOk, Except.toBool]
  · intro submit prompt title tags sw wc nt cm mi mv msg
    simp only [create_music]
    split <;> simp
